import Mathlib

/-!
Shallow embedding of `src/utils/video_converter.py`
(infographic-video-generation): the deck-to-video rendering pipeline.

Machine reals used by the Python code for durations are embedded as `ℚ`
(all values involved are exact binary fractions), EMU coordinates as `ℕ`,
and the float expression `int((coord / total) * out)` as exact rational
arithmetic followed by truncation, i.e. `coord * out / total` in `ℕ`.
Calls into PIL / moviepy are embedded symbolically: an image is an
expression recording which library constructions produced it, and a clip
records its structure and duration.  Runtime exceptions of library calls
that the Python code catches are modelled by explicit outcome flags on
the input data (e.g. whether a picture blob decodes).
-/

namespace VideoConverter

/-- An 8-bit RGB color triple. -/
structure RGB where
  r : Nat
  g : Nat
  b : Nat
deriving Repr, DecidableEq

/-- The default white background color `(255, 255, 255)`. -/
def white : RGB := ⟨255, 255, 255⟩

/-- Python exception values that the embedded control flow distinguishes. -/
inductive PyError where
  | nameError (msg : String)
  | unboundLocalError (msg : String)
  | valueError (msg : String)
  | runtimeError (msg : String)
  | fileNotFoundError (msg : String)
deriving Repr, DecidableEq

/-- A background / shape fill, as probed by the code via `MSO_FILL_TYPE`.
`solid` carries `fore_color.rgb` when available (`none` embeds a
theme-relative color for which the `rgb` attribute probe fails);
`picture` carries an abstract blob id plus whether PIL can decode it;
`patterned` carries the two pattern colors; `otherFill` stands for any
further fill type (textured, background, ...). -/
inductive Fill where
  | solid (rgb : Option RGB)
  | gradient
  | picture (blobId : Nat) (decodesOk : Bool)
  | patterned (fore back : RGB)
  | otherFill
deriving Repr, DecidableEq

/-- Symbolic image expressions: each constructor records one PIL
construction performed by the code. -/
inductive ImageExpr where
  | flat (w h : Nat) (c : RGB)
  | decoded (blobId : Nat)
  | resized (src : ImageExpr) (w h : Nat)
  | toRGB (src : ImageExpr)
deriving Repr, DecidableEq

/-- Background fill lookup chain (lines 128-147): slide background, then
slide-layout background, then slide-master background; first present wins. -/
def resolveFillChain (slideBg layoutBg masterBg : Option Fill) : Option Fill :=
  match slideBg with
  | some f => some f
  | none =>
    match layoutBg with
    | some f => some f
    | none => masterBg

/-- Background rasterization (lines 149-193).  The initial background is
white; a solid fill with an `rgb` replaces it by a flat color; a gradient
fill calls `create_gradient_background`, a function that is defined
nowhere in the repository, so the branch raises `NameError`; a picture
fill decodes, resizes to the output resolution and converts to RGB (a
decode failure is caught by an inner handler, keeping the white default);
every other fill type, including `patterned`, falls into the final `else`
branch and keeps the default white. -/
def resolveBackgroundImage (fill? : Option Fill) (outW outH : Nat) :
    Except PyError ImageExpr :=
  match fill? with
  | none => .ok (.flat outW outH white)
  | some f =>
    match f with
    | .solid rgb? =>
      match rgb? with
      | some c => .ok (.flat outW outH c)
      | none => .ok (.flat outW outH white)
    | .gradient =>
      .error (.nameError "name create_gradient_background is not defined")
    | .picture blobId decodesOk =>
      if decodesOk then .ok (.toRGB (.resized (.decoded blobId) outW outH))
      else .ok (.flat outW outH white)
    | .patterned _ _ => .ok (.flat outW outH white)
    | .otherFill => .ok (.flat outW outH white)

/-- Tile origins of `create_pattern_background`: Python
`range(0, limit, 40)` (the loops step by `pattern_size * 2 = 40`). -/
def tileStarts (limit : Nat) : List Nat :=
  (List.range ((limit + 39) / 40)).map (fun k => 40 * k)

/-- Whether pixel `(px, py)` is covered by one of the fore-color
rectangles drawn by `create_pattern_background` (lines 435-443); PIL
rectangles include both corner coordinates. -/
def patternForeAt (w h px py : Nat) : Bool :=
  (tileStarts w).any (fun tx =>
    (tileStarts h).any (fun ty =>
      (decide (tx ≤ px) && decide (px ≤ tx + 20) &&
       decide (ty ≤ py) && decide (py ≤ ty + 20)) ||
      (decide (tx + 20 ≤ px) && decide (px ≤ tx + 40) &&
       decide (ty + 20 ≤ py) && decide (py ≤ ty + 40))))

/-- Pixel content of the checkerboard image built by
`create_pattern_background` (lines 427-448). -/
def patternPixel (fore back : RGB) (w h px py : Nat) : RGB :=
  if patternForeAt w h px py then fore else back

/-- Embedding of `int((coord / total) * out)` (lines 220-223, 268-269,
302-306, 342-346) with exact arithmetic: floor of `coord * out / total`. -/
def emuToPx (coord total out : Nat) : Nat :=
  coord * out / total

/-- Optional native-unit geometry attributes of a shape, as probed with
`hasattr`: `none` embeds a missing attribute. -/
structure Geom where
  left : Option Nat
  top : Option Nat
  width : Option Nat
  height : Option Nat
deriving Repr, DecidableEq

/-- A pixel-space rectangle. -/
structure Rect where
  x : Nat
  y : Nat
  w : Nat
  h : Nat
deriving Repr, DecidableEq

/-- Pixel rectangle of the solid-fill branch (lines 211-223): missing
position defaults to 0 and missing size defaults to the full pixel frame. -/
def fillBranchRect (g : Geom) (W H outW outH : Nat) : Rect :=
  ⟨emuToPx (g.left.getD 0) W outW,
   emuToPx (g.top.getD 0) H outH,
   emuToPx (g.width.getD outW) W outW,
   emuToPx (g.height.getD outH) H outH⟩

/-- Pixel rectangle of the picture branch (lines 294-306, 333-346):
missing position defaults to 0 and missing size defaults to half the
slide's native size. -/
def pictureBranchRect (g : Geom) (W H outW outH : Nat) : Rect :=
  ⟨emuToPx (g.left.getD 0) W outW,
   emuToPx (g.top.getD 0) H outH,
   emuToPx (g.width.getD (W / 2)) W outW,
   emuToPx (g.height.getD (H / 2)) H outH⟩

theorem emuToPx_floor (a t o : Nat) (ht : 0 < t) :
    ((emuToPx a t o : ℚ) ≤ (a : ℚ) / t * o) ∧
      ((a : ℚ) / t * o < emuToPx a t o + 1) := by
  have ht' : (0 : ℚ) < (t : ℚ) := by exact_mod_cast ht
  have key : (a : ℚ) / t * o = ((a * o : ℕ) : ℚ) / t := by
    push_cast
    ring
  have hupper : a * o < t * (a * o / t) + t := by
    calc a * o = t * (a * o / t) + a * o % t := (Nat.div_add_mod _ _).symm
    _ < t * (a * o / t) + t := Nat.add_lt_add_left (Nat.mod_lt _ ht) _
  constructor
  · rw [key, le_div_iff₀ ht']
    exact_mod_cast Nat.div_mul_le_self (a * o) t
  · rw [key, div_lt_iff₀ ht']
    have : a * o < (a * o / t + 1) * t := by
      calc a * o < t * (a * o / t) + t := hupper
      _ = (a * o / t + 1) * t := by ring
    exact_mod_cast this

theorem emuToPx_scale (a t o k : Nat) (hk : 0 < k) :
    emuToPx (k * a) (k * t) o = emuToPx a t o := by
  unfold emuToPx
  rw [Nat.mul_assoc]
  exact Nat.mul_div_mul_left _ _ hk

/-- Shape classification as tested via `shape.shape_type`. -/
inductive ShapeKind where
  | autoShape
  | picture
  | table
  | otherKind
deriving Repr, DecidableEq

/-- A text run: text, optional font size in points (`run.font.size`),
optional explicit RGB color (`none` embeds the fallback-to-black cases of
`get_font_color`). -/
structure TextRun where
  text : String
  fontSizePt : Option Nat
  color : Option RGB
deriving Repr, DecidableEq

/-- A text frame: paragraphs, each a list of runs. -/
structure TextFrame where
  paragraphs : List (List TextRun)
deriving Repr, DecidableEq

/-- Picture payload of a picture shape: abstract blob id, whether PIL can
decode the blob, and whether it decodes to an animated GIF. -/
structure PicData where
  blobId : Nat
  decodesOk : Bool
  animatedGif : Bool
deriving Repr, DecidableEq

/-- Table payload: grid dimensions and cell texts. -/
structure TableData where
  rows : Nat
  cols : Nat
  cells : List (List String)
deriving Repr, DecidableEq

/-- A slide shape, with `hasattr`-probed optional attributes. -/
structure Shape where
  fill : Option Fill
  textFrame : Option TextFrame
  kind : ShapeKind
  image : Option PicData
  table : Option TableData
  geom : Geom
deriving Repr, DecidableEq

/-- Font color resolution of `get_font_color` (lines 23-35): explicit RGB
when present, otherwise opaque black. -/
def get_font_color (r : TextRun) : RGB :=
  r.color.getD ⟨0, 0, 0⟩

/-- Font size resolution (line 249): the run's size in points, else 24. -/
def runFontSize (r : TextRun) : Nat :=
  r.fontSizePt.getD 24

/-- One `draw.text` call recorded by the text branch. -/
structure TextDraw where
  text : String
  x : Nat
  y : Nat
  size : Nat
  color : RGB
deriving Repr, DecidableEq

/-- Embedding of Python `str.strip()`: drop whitespace characters from
both ends of the string. -/
def pyStrip (s : String) : String :=
  ⟨((s.data.dropWhile Char.isWhitespace).reverse.dropWhile
      Char.isWhitespace).reverse⟩

/-- Text draws of the text-frame branch (lines 243-275): every run with
non-empty stripped text is drawn independently at the shape's top-left
pixel position. -/
def textDraws (tf : TextFrame) (g : Geom) (W H outW outH : Nat) :
    List TextDraw :=
  (tf.paragraphs.flatten).filterMap (fun r =>
    if pyStrip r.text = "" then none
    else
      some ⟨pyStrip r.text,
            emuToPx (g.left.getD 0) W outW,
            emuToPx (g.top.getD 0) H outH,
            runFontSize r,
            get_font_color r⟩)

/-- One transparent layer appended to the slide's clip list by the shape
loop. -/
inductive Layer where
  | fillRect (rect : Rect) (color : RGB)
  | textLayer (draws : List TextDraw)
  | gifLayer (rect : Rect) (blobId : Nat)
  | imageLayer (rect : Rect) (blobId : Nat)
  | tableLayer (rows cols : Nat)
deriving Repr, DecidableEq

/-- Layers produced by the solid-fill part of the shape body (lines
203-234), paired with whether the branch raised: a solid fill whose
`fore_color.rgb` is unavailable raises before appending anything. -/
def fillLayers (sh : Shape) (W H outW outH : Nat) : List Layer × Bool :=
  match sh.fill with
  | some (.solid (some c)) =>
    ([.fillRect (fillBranchRect sh.geom W H outW outH) c], false)
  | some (.solid none) => ([], true)
  | _ => ([], false)

/-- Layers of the kind-specific content chain (lines 236-409): an
`if`/`elif` chain trying text frame, then picture, then table.  An
undecodable picture blob raises inside the branch (producing nothing); a
table with a zero grid dimension raises on the integer division. -/
def contentLayers (sh : Shape) (W H outW outH : Nat) : List Layer × Bool :=
  match sh.textFrame with
  | some tf => ([.textLayer (textDraws tf sh.geom W H outW outH)], false)
  | none =>
    if sh.kind = .picture then
      match sh.image with
      | some pic =>
        if pic.decodesOk then
          if pic.animatedGif then
            ([.gifLayer (pictureBranchRect sh.geom W H outW outH) pic.blobId],
             false)
          else
            ([.imageLayer (pictureBranchRect sh.geom W H outW outH)
                pic.blobId],
             false)
        else ([], true)
      | none => ([], false)
    else if sh.kind = .table then
      match sh.table with
      | some t =>
        if t.rows = 0 ∨ t.cols = 0 then ([], true)
        else ([.tableLayer t.rows t.cols], false)
      | none => ([], false)
    else ([], false)

/-- Full body of one iteration of the shape loop: the fill part runs
first; if it raises the rest of the body is skipped, otherwise the
content chain runs.  The second component records whether an exception
was raised (and caught by the per-shape handler at lines 411-414). -/
def shapeBody (sh : Shape) (W H outW outH : Nat) : List Layer × Bool :=
  match fillLayers sh W H outW outH with
  | (ls, true) => (ls, true)
  | (ls, false) =>
    match contentLayers sh W H outW outH with
    | (cs, raised) => (ls ++ cs, raised)

/-- The shape loop (lines 197-414): each shape's produced layers are
appended; any exception is caught per shape and the loop continues. -/
def processShapes (shapes : List Shape) (W H outW outH : Nat) : List Layer :=
  match shapes with
  | [] => []
  | sh :: rest =>
    (shapeBody sh W H outW outH).1 ++ processShapes rest W H outW outH

theorem processShapes_append (xs ys : List Shape) (W H outW outH : Nat) :
    processShapes (xs ++ ys) W H outW outH =
      processShapes xs W H outW outH ++ processShapes ys W H outW outH := by
  induction xs with
  | nil => simp [processShapes]
  | cons sh rest ih => simp [processShapes, ih]

/-- Symbolic moviepy clips.  Leaf clips carry their duration in seconds
(exact rationals); composite and effect clips derive theirs. -/
inductive Clip where
  | imageClip (img : ImageExpr) (d : ℚ)
  | layerClip (l : Layer) (d : ℚ)
  | composite (cs : List Clip) (w h : Nat) (d : ℚ)
  | fadeInOut (c : Clip) (td : ℚ)
  | slideFromLeft (c : Clip) (td : ℚ)
  | slideFromRight (c : Clip) (td : ℚ)
  | zoomed (c : Clip) (td : ℚ)
deriving Repr

/-- Total duration of a clip: fades, directional slides and zooms keep
the duration of the wrapped clip (moviepy semantics of the calls used). -/
def Clip.duration : Clip → ℚ
  | .imageClip _ d => d
  | .layerClip _ d => d
  | .composite _ _ _ d => d
  | .fadeInOut c _ => c.duration
  | .slideFromLeft c _ => c.duration
  | .slideFromRight c _ => c.duration
  | .zoomed c _ => c.duration

/-- Duration of a `CompositeVideoClip`: the maximum duration among the
stacked clips. -/
def maxDuration (cs : List Clip) : ℚ :=
  cs.foldr (fun c acc => max c.duration acc) 0

/-- A `CompositeVideoClip` over a common canvas. -/
def compositeOf (cs : List Clip) (w h : Nat) : Clip :=
  .composite cs w h (maxDuration cs)

/-- `apply_transition_effect` (lines 88-117): dispatch on the transition
name; an unknown name leaves the clip unchanged.  Each effect keeps the
clip's total duration. -/
def apply_transition_effect (c : Clip) (t : String) (td : ℚ) : Clip :=
  if t = "fade" then .fadeInOut c td
  else if t = "slide_left" then .slideFromLeft c td
  else if t = "slide_right" then .slideFromRight c td
  else if t = "zoom" then .zoomed c td
  else c

theorem apply_transition_effect_duration (c : Clip) (t : String) (td : ℚ) :
    (apply_transition_effect c t td).duration = c.duration := by
  unfold apply_transition_effect
  repeat' split
  all_goals rfl

/-- A slide: background fills at the three lookup levels, the shape list,
and a fault flag embedding a runtime exception raised by
`CompositeVideoClip` (i.e. an exception occurring after `background_clip`
has been bound). -/
structure Slide where
  bg : Option Fill
  layoutBg : Option Fill
  masterBg : Option Fill
  shapes : List Shape
  compositeRaises : Bool

/-- `create_slide_clip` (lines 120-424).  If background resolution raises
(the gradient branch's `NameError`), the outer handler's own
`return background_clip` raises `UnboundLocalError`, which propagates.
Otherwise the background clip is built, the shape loop produces layers,
and either the composite (or, when the composite call raises, the bound
`background_clip` returned by the handler) or the lone background clip is
returned. -/
def create_slide_clip (s : Slide) (outW outH : Nat) (d : ℚ) (W H : Nat) :
    Except PyError Clip :=
  match resolveBackgroundImage (resolveFillChain s.bg s.layoutBg s.masterBg)
      outW outH with
  | .error _ =>
    .error (.unboundLocalError
      "local variable background_clip referenced before assignment")
  | .ok bg =>
    let bgClip := Clip.imageClip bg d
    let clips := bgClip ::
      (processShapes s.shapes W H outW outH).map (fun l => Clip.layerClip l d)
    if clips.length > 1 then
      if s.compositeRaises then .ok bgClip
      else .ok (compositeOf clips outW outH)
    else .ok bgClip

/-- The fixed transition list (line 466). -/
def transitions : List String :=
  ["fade", "slide_left", "slide_right", "zoom"]

/-- Transition chosen for the 1-based slide index `i` (lines 485-486):
`transitions[i % len(transitions)]`. -/
def transitionFor (i : Nat) : String :=
  transitions.getD (i % transitions.length) ""

/-- The blank fallback clip substituted for a slide whose processing
raised (lines 500-503): a white full-resolution frame held for
`transition_duration = 0.5` seconds. -/
def blankFallbackClip : Clip :=
  .imageClip (.flat 1920 1080 white) (1 / 2)

/-- One iteration of the slide loop (lines 470-503) at 1-based index `i`:
render the slide at `duration + transition_duration = 2.5` seconds, wrap
it with the cyclic transition; on an exception append the blank fallback
clip instead. -/
def processSlide (W H : Nat) (i : Nat) (s : Slide) : Clip :=
  match create_slide_clip s 1920 1080 (5 / 2) W H with
  | .ok c => apply_transition_effect c (transitionFor i) (1 / 2)
  | .error _ => blankFallbackClip

/-- The slide loop from 1-based index `i`. -/
def slideClipsFrom (W H i : Nat) : List Slide → List Clip
  | [] => []
  | s :: rest => processSlide W H i s :: slideClipsFrom W H (i + 1) rest

/-- All per-slide clips of a deck, in slide order (`enumerate(.., 1)`). -/
def slideClips (W H : Nat) (slides : List Slide) : List Clip :=
  slideClipsFrom W H 1 slides

/-- A parsed deck: slides plus the native (EMU) slide dimensions. -/
structure Deck where
  slides : List Slide
  widthEmu : Nat
  heightEmu : Nat

/-- Outcome of the external `write_videofile` call: whether it raises,
and the file (by size in bytes) left at the output path afterwards
(`none` when nothing was written). -/
structure Encoder where
  raises : Bool
  written : Option Nat

/-- Observable outcome of `convert_pptx_to_video`. -/
structure RunResult where
  result : Except PyError Unit
  encodingAttempted : Bool
  outputFile : Option Nat
  segments : List Clip

/-- `convert_pptx_to_video` (lines 451-538).  `parse = none` embeds a
deck that fails to parse.  With zero produced clips the function raises
`ValueError("No valid slides were processed")` before any encoding; the
outer handler wraps every exception in a `RuntimeError`.  `initialFile`
is the file present at the output path before the run. -/
def convert_pptx_to_video (parse : Option Deck) (enc : Encoder)
    (initialFile : Option Nat) : RunResult :=
  match parse with
  | none =>
    { result := .error (.runtimeError
        "Failed to convert PPTX to video: presentation could not be parsed")
      encodingAttempted := false
      outputFile := initialFile
      segments := [] }
  | some deck =>
    let clips := slideClips deck.widthEmu deck.heightEmu deck.slides
    if clips.isEmpty then
      { result := .error (.runtimeError
          "Failed to convert PPTX to video: No valid slides were processed")
        encodingAttempted := false
        outputFile := initialFile
        segments := [] }
    else if enc.raises then
      { result := .error (.runtimeError
          "Failed to convert PPTX to video: encoder error")
        encodingAttempted := true
        outputFile := enc.written
        segments := clips }
    else
      { result := .ok ()
        encodingAttempted := true
        outputFile := enc.written
        segments := clips }

/-- Observable outcome of `convert_to_video`: the returned value or the
propagated exception, and the file left at the output path. -/
structure ConvertResult where
  result : Except PyError Bool
  finalFile : Option Nat
  encodingAttempted : Bool

/-- `convert_to_video` (lines 541-584): checks ImageMagick and the input
file type, runs the conversion, then verifies the output file exists and
has size at least 1000 bytes; on any exception the handler removes the
output file (removal modelled as succeeding) and re-raises. -/
def convert_to_video (imagemagickOk validPptx : Bool) (parse : Option Deck)
    (enc : Encoder) (initialFile : Option Nat) : ConvertResult :=
  if imagemagickOk = false then
    ⟨.error (.runtimeError "ImageMagick is not properly configured"),
     none, false⟩
  else if validPptx = false then
    ⟨.error (.valueError "Invalid PPTX file format"), none, false⟩
  else
    let run := convert_pptx_to_video parse enc initialFile
    match run.result with
    | .error e => ⟨.error e, none, run.encodingAttempted⟩
    | .ok _ =>
      match run.outputFile with
      | none =>
        ⟨.error (.fileNotFoundError "Video was not created"),
         none, run.encodingAttempted⟩
      | some sz =>
        if sz < 1000 then
          ⟨.error (.valueError "Generated video is too small"),
           none, run.encodingAttempted⟩
        else ⟨.ok true, some sz, run.encodingAttempted⟩

/-- A slide with no background fill at any level and no shapes. -/
def trivialSlide : Slide := ⟨none, none, none, [], false⟩

/-- A slide whose own background is a gradient fill. -/
def gradientSlide : Slide := ⟨some .gradient, none, none, [], false⟩

/-- Geometry filling a 9144000 x 6858000 EMU slide exactly. -/
def fullGeom : Geom := ⟨some 0, some 0, some 9144000, some 6858000⟩

/-- An auto shape with a red solid fill covering the whole slide. -/
def redRectShape : Shape :=
  ⟨some (.solid (some ⟨255, 0, 0⟩)), none, .autoShape, none, none, fullGeom⟩

/-- A picture shape whose blob PIL cannot decode, with no fill and no
text frame. -/
def badPictureShape : Shape :=
  ⟨none, none, .picture, some ⟨0, false, false⟩, none, ⟨none, none, none, none⟩⟩

/-- A shape that simultaneously has a red solid fill, a text frame with
one run, and is classified as a picture with a decodable static image. -/
def fillTextPicShape : Shape :=
  ⟨some (.solid (some ⟨255, 0, 0⟩)), some ⟨[[⟨"hi", none, none⟩]]⟩,
   .picture, some ⟨3, true, false⟩, none, fullGeom⟩

/-- Whether a layer is picture content (static image or GIF). -/
def isImageContentLayer : Layer → Bool
  | .imageLayer _ _ => true
  | .gifLayer _ _ => true
  | _ => false

/-- Whether a layer is table content. -/
def isTableContentLayer : Layer → Bool
  | .tableLayer _ _ => true
  | _ => false

/-- C2: transition selection is the pure cyclic function
`transitions[i % 4]` of the 1-based slide index over the fixed list
`[fade, slide_left, slide_right, zoom]`: slide 1 gets slide_left, slide 2
slide_right, slide 3 zoom, slide 4 fade, slide 5 slide_left, with period
4; and the slide loop wraps each successfully rendered slide with exactly
that transition. -/
theorem claim2_transition_selection :
    transitions = ["fade", "slide_left", "slide_right", "zoom"] ∧
    (∀ i, transitionFor i = transitions.getD (i % 4) "") ∧
    transitionFor 1 = "slide_left" ∧ transitionFor 2 = "slide_right" ∧
    transitionFor 3 = "zoom" ∧ transitionFor 4 = "fade" ∧
    transitionFor 5 = "slide_left" ∧
    (∀ i, transitionFor (i + 4) = transitionFor i) ∧
    (∀ W H i s c, create_slide_clip s 1920 1080 (5 / 2) W H = .ok c →
       processSlide W H i s =
         apply_transition_effect c (transitionFor i) (1 / 2)) := by
  refine ⟨rfl, fun i => rfl, rfl, rfl, rfl, rfl, rfl, fun i => ?_,
    fun W H i s c h => ?_⟩
  · unfold transitionFor
    rw [show (i + 4) % transitions.length = i % transitions.length from
      Nat.add_mod_right i 4]
  · unfold processSlide
    rw [h]

/-- Witness for C2: a slide with no background and no shapes renders as a
bare white background clip, and slide index 1 receives the slide_left
transition. -/
theorem claim2_witness :
    processSlide 9144000 6858000 1 trivialSlide =
      apply_transition_effect
        (Clip.imageClip (.flat 1920 1080 white) (5 / 2))
        (transitionFor 1) (1 / 2) :=
  claim2_transition_selection.2.2.2.2.2.2.2.2 9144000 6858000 1 trivialSlide
    (Clip.imageClip (.flat 1920 1080 white) (5 / 2)) rfl

/-- C4: the pixel geometry of a shape with all four native attributes is
obtained by applying the same linear map `coord * out / total` to left,
top, width and height, in both the fill branch and the picture branch;
the map is the floor of the exact value `coord / total * out`; and it is
invariant under scaling the native coordinate space. -/
theorem claim4_linear_geometry :
    (∀ x y w h W H outW outH,
       fillBranchRect ⟨some x, some y, some w, some h⟩ W H outW outH =
         ⟨emuToPx x W outW, emuToPx y H outH,
          emuToPx w W outW, emuToPx h H outH⟩) ∧
    (∀ x y w h W H outW outH,
       pictureBranchRect ⟨some x, some y, some w, some h⟩ W H outW outH =
         fillBranchRect ⟨some x, some y, some w, some h⟩ W H outW outH) ∧
    (∀ a t o, 0 < t →
       ((emuToPx a t o : ℚ) ≤ (a : ℚ) / t * o) ∧
         ((a : ℚ) / t * o < emuToPx a t o + 1)) ∧
    (∀ a t o k, 0 < k → emuToPx (k * a) (k * t) o = emuToPx a t o) :=
  ⟨fun _ _ _ _ _ _ _ _ => rfl, fun _ _ _ _ _ _ _ _ => rfl,
   emuToPx_floor, emuToPx_scale⟩

/-- Witness for C4: the floor bounds and the scale invariance at concrete
inputs, e.g. native 3 of 2 total mapped to 1920 output pixels. -/
theorem claim4_witness :
    (((emuToPx 3 2 1920 : ℚ) ≤ (3 : ℚ) / 2 * 1920) ∧
      ((3 : ℚ) / 2 * 1920 < emuToPx 3 2 1920 + 1)) ∧
    emuToPx (2 * 3) (2 * 2) 1920 = emuToPx 3 2 1920 :=
  ⟨claim4_linear_geometry.2.2.1 3 2 1920 (by decide),
   claim4_linear_geometry.2.2.2 3 2 1920 2 (by decide)⟩

/-- C5: the background resolver handles solid, picture and unset fills as
specified, but a gradient fill raises `NameError` (the called
`create_gradient_background` is defined nowhere in the repository), so a
gradient slide degenerates to the blank fallback clip; and a pattern fill
has no branch at all, yielding default white instead of the checkerboard
that the unreachable `create_pattern_background` would produce. -/
theorem claim5_background_resolver :
    resolveBackgroundImage (some (.solid (some ⟨10, 20, 30⟩))) 1920 1080 =
      .ok (.flat 1920 1080 ⟨10, 20, 30⟩) ∧
    resolveBackgroundImage (some (.picture 7 true)) 1920 1080 =
      .ok (.toRGB (.resized (.decoded 7) 1920 1080)) ∧
    resolveBackgroundImage none 1920 1080 = .ok (.flat 1920 1080 white) ∧
    resolveBackgroundImage (some .otherFill) 1920 1080 =
      .ok (.flat 1920 1080 white) ∧
    resolveBackgroundImage (some .gradient) 1920 1080 =
      .error (.nameError "name create_gradient_background is not defined") ∧
    resolveBackgroundImage (some (.patterned ⟨255, 0, 0⟩ ⟨0, 0, 255⟩))
        1920 1080 = .ok (.flat 1920 1080 white) ∧
    patternPixel ⟨255, 0, 0⟩ ⟨0, 0, 255⟩ 1920 1080 0 0 = ⟨255, 0, 0⟩ ∧
    patternPixel ⟨255, 0, 0⟩ ⟨0, 0, 255⟩ 1920 1080 0 0 ≠ white ∧
    processSlide 9144000 6858000 1 gradientSlide = blankFallbackClip :=
  ⟨rfl, rfl, rfl, rfl, rfl, rfl, by decide, by decide, rfl⟩

/-- C8: a shape whose picture blob cannot be decoded raises inside its
branch, is caught by the per-shape handler and contributes no layers; and
any shape contributing no layers leaves the layers of all other shapes of
the slide unchanged. -/
theorem claim8_bad_shape_skipped :
    (∀ W H outW outH, shapeBody badPictureShape W H outW outH = ([], true)) ∧
    (∀ pre post bad W H outW outH,
       (shapeBody bad W H outW outH).1 = [] →
       processShapes (pre ++ bad :: post) W H outW outH =
         processShapes pre W H outW outH ++
           processShapes post W H outW outH) := by
  refine ⟨fun _ _ _ _ => rfl, fun pre post bad W H outW outH h => ?_⟩
  rw [processShapes_append]
  simp [processShapes, h]

/-- Witness for C8: between two red-rectangle shapes, the undecodable
picture shape vanishes and both neighbours still render. -/
theorem claim8_witness :
    processShapes ([redRectShape] ++ badPictureShape :: [redRectShape])
        9144000 6858000 1920 1080 =
      processShapes [redRectShape] 9144000 6858000 1920 1080 ++
        processShapes [redRectShape] 9144000 6858000 1920 1080 :=
  claim8_bad_shape_skipped.2 [redRectShape] [redRectShape] badPictureShape
    9144000 6858000 1920 1080 rfl

/-- C10: the catch-all handler of `create_slide_clip` returns the bound
`background_clip` for exceptions raised after that binding (here: a
raising composite call over more than one clip), but when background
resolution itself raises, the handler's `return background_clip` raises
`UnboundLocalError` and the function propagates an exception instead of
returning a fallback clip. -/
theorem claim10_fallback_soundness :
    (∀ s outW outH d W H,
       resolveFillChain s.bg s.layoutBg s.masterBg = some .gradient →
       create_slide_clip s outW outH d W H =
         .error (.unboundLocalError
           "local variable background_clip referenced before assignment")) ∧
    (∀ s outW outH d W H bg,
       resolveBackgroundImage (resolveFillChain s.bg s.layoutBg s.masterBg)
           outW outH = .ok bg →
       s.compositeRaises = true →
       processShapes s.shapes W H outW outH ≠ [] →
       create_slide_clip s outW outH d W H =
         .ok (Clip.imageClip bg d)) := by
  constructor
  · intro s outW outH d W H h
    unfold create_slide_clip
    rw [h]
    rfl
  · intro s outW outH d W H bg hbg hraise hne
    unfold create_slide_clip
    rw [hbg]
    have hlen : 0 < (processShapes s.shapes W H outW outH).length :=
      List.length_pos.mpr hne
    simp only [List.length_cons, List.length_map, gt_iff_lt]
    rw [if_pos (by omega), if_pos hraise]

/-- Witness for C10: a gradient-background slide makes `create_slide_clip`
propagate the `UnboundLocalError`, while a blue solid slide with one
shape and a raising composite call yields the background clip fallback. -/
theorem claim10_witness :
    create_slide_clip gradientSlide 1920 1080 (5 / 2) 9144000 6858000 =
      .error (.unboundLocalError
        "local variable background_clip referenced before assignment") ∧
    create_slide_clip
        (Slide.mk (some (.solid (some ⟨0, 0, 255⟩))) none none
          [redRectShape] true) 1920 1080 (5 / 2) 9144000 6858000 =
      .ok (Clip.imageClip (.flat 1920 1080 ⟨0, 0, 255⟩) (5 / 2)) :=
  ⟨claim10_fallback_soundness.1 gradientSlide 1920 1080 (5 / 2)
      9144000 6858000 rfl,
   claim10_fallback_soundness.2
      (Slide.mk (some (.solid (some ⟨0, 0, 255⟩))) none none
        [redRectShape] true) 1920 1080 (5 / 2) 9144000 6858000
      (.flat 1920 1080 ⟨0, 0, 255⟩) rfl rfl (by decide)⟩

theorem fillLayers_shape_cases (sh : Shape) (W H outW outH : Nat) :
    (fillLayers sh W H outW outH).1 = [] ∨
      ∃ r c, (fillLayers sh W H outW outH).1 = [.fillRect r c] := by
  unfold fillLayers
  split
  · exact Or.inr ⟨_, _, rfl⟩
  · exact Or.inl rfl
  · exact Or.inl rfl

/-- C7 counterexample: a shape with a red solid fill, a text frame and a
decodable picture renders fill and text only; its picture content is not
drawn, because the content chain is `if text_frame / elif picture /
elif table`. -/
theorem claim7_counterexample :
    (shapeBody fillTextPicShape 9144000 6858000 1920 1080).1 =
      [.fillRect ⟨0, 0, 1920, 1080⟩ ⟨255, 0, 0⟩,
       .textLayer [⟨"hi", 0, 0, 24, ⟨0, 0, 0⟩⟩]] ∧
    ((shapeBody fillTextPicShape 9144000 6858000 1920 1080).1.any
        isImageContentLayer) = false := by
  constructor
  · rfl
  · rfl

/-- C7 amended: for a shape with a text frame (whose fill part does not
raise), the body draws the fill layers first and then exactly the text
layer; picture and table content of the same shape are never drawn. -/
theorem claim7_amended :
    ∀ sh W H outW outH tf, sh.textFrame = some tf →
      (fillLayers sh W H outW outH).2 = false →
      shapeBody sh W H outW outH =
        ((fillLayers sh W H outW outH).1 ++
          [Layer.textLayer (textDraws tf sh.geom W H outW outH)], false) ∧
      (shapeBody sh W H outW outH).1.any isImageContentLayer = false ∧
      (shapeBody sh W H outW outH).1.any isTableContentLayer = false := by
  intro sh W H outW outH tf htf hfl
  have hc : contentLayers sh W H outW outH =
      ([.textLayer (textDraws tf sh.geom W H outW outH)], false) := by
    unfold contentLayers
    rw [htf]
  have hbody : shapeBody sh W H outW outH =
      ((fillLayers sh W H outW outH).1 ++
        [Layer.textLayer (textDraws tf sh.geom W H outW outH)], false) := by
    unfold shapeBody
    rcases hflv : fillLayers sh W H outW outH with ⟨ls, b⟩
    rw [hflv] at hfl
    simp only at hfl
    subst hfl
    rw [hc]
  refine ⟨hbody, ?_, ?_⟩ <;> rw [hbody] <;>
    rcases fillLayers_shape_cases sh W H outW outH with h0 | ⟨r, c, h0⟩ <;>
      simp [h0, isImageContentLayer, isTableContentLayer]

/-- Witness for C7 amended: the combined fill/text/picture shape yields
its fill rectangle followed by its text layer, with no picture and no
table content. -/
theorem claim7_witness :
    shapeBody fillTextPicShape 9144000 6858000 1920 1080 =
      ((fillLayers fillTextPicShape 9144000 6858000 1920 1080).1 ++
        [Layer.textLayer
          (textDraws ⟨[[⟨"hi", none, none⟩]]⟩ fillTextPicShape.geom
            9144000 6858000 1920 1080)], false) ∧
    (shapeBody fillTextPicShape 9144000 6858000 1920 1080).1.any
        isImageContentLayer = false ∧
    (shapeBody fillTextPicShape 9144000 6858000 1920 1080).1.any
        isTableContentLayer = false :=
  claim7_amended fillTextPicShape 9144000 6858000 1920 1080
    ⟨[[⟨"hi", none, none⟩]]⟩ rfl rfl

theorem maxDuration_const (d : ℚ) (hd : 0 ≤ d) :
    ∀ cs : List Clip, cs ≠ [] → (∀ c ∈ cs, c.duration = d) →
      maxDuration cs = d := by
  intro cs
  induction cs with
  | nil => intro h; exact absurd rfl h
  | cons c rest ih =>
    intro _ hall
    have hc : c.duration = d := hall c (List.mem_cons_self c rest)
    cases rest with
    | nil => simp [maxDuration, hc, max_eq_left hd]
    | cons c2 rest2 =>
      have hrest : maxDuration (c2 :: rest2) = d :=
        ih (by simp) (fun x hx => hall x (List.mem_cons_of_mem c hx))
      show max c.duration (maxDuration (c2 :: rest2)) = d
      rw [hc, hrest, max_self]

theorem create_slide_clip_ok_duration (s : Slide) (outW outH : Nat) (d : ℚ)
    (W H : Nat) (c : Clip) (hd : 0 ≤ d)
    (h : create_slide_clip s outW outH d W H = .ok c) :
    c.duration = d := by
  unfold create_slide_clip at h
  rcases hres : resolveBackgroundImage
      (resolveFillChain s.bg s.layoutBg s.masterBg) outW outH with e | bg
  · rw [hres] at h
    exact absurd h (by simp)
  · rw [hres] at h
    simp only at h
    split at h
    · split at h
      · cases h
        rfl
      · cases h
        show maxDuration _ = d
        refine maxDuration_const d hd _ (by simp) ?_
        intro x hx
        rcases List.mem_cons.mp hx with hx | hx
        · subst hx
          rfl
        · rcases List.mem_map.mp hx with ⟨l, _, hl⟩
          subst hl
          rfl
    · cases h
      rfl

/-- C6 counterexample: for a deck whose only slide has a gradient
background (a slide that fails to render), the single produced segment is
the blank fallback clip of duration 0.5 seconds, not 2.5 seconds. -/
theorem claim6_counterexample :
    slideClips 9144000 6858000 [gradientSlide] = [blankFallbackClip] ∧
    Clip.duration blankFallbackClip = 1 / 2 ∧
    ((1 : ℚ) / 2 ≠ 5 / 2) :=
  ⟨rfl, rfl, by norm_num⟩

/-- C6 amended: a deck with N slides yields exactly N segments in slide
order; a segment of a successfully rendered slide is transition-wrapped
with duration `base + transition = 2.5` seconds, while a slide whose
processing raised is replaced by the blank fallback clip, whose duration
is only `transition_duration = 0.5` seconds. -/
theorem claim6_segment_durations :
    (∀ W H slides, (slideClips W H slides).length = slides.length) ∧
    (∀ W H slides i,
       (slideClips W H slides)[i]? =
         (slides[i]?).map (fun s => processSlide W H (i + 1) s)) ∧
    (∀ W H slides c, c ∈ slideClips W H slides →
       c.duration = 5 / 2 ∨ c = blankFallbackClip) ∧
    Clip.duration blankFallbackClip = 1 / 2 := by
  have hlen : ∀ W H j (slides : List Slide),
      (slideClipsFrom W H j slides).length = slides.length := by
    intro W H j slides
    induction slides generalizing j with
    | nil => rfl
    | cons s rest ih => simp [slideClipsFrom, ih]
  have hidx : ∀ W H j (slides : List Slide) i,
      (slideClipsFrom W H j slides)[i]? =
        (slides[i]?).map (fun s => processSlide W H (j + i) s) := by
    intro W H j slides
    induction slides generalizing j with
    | nil => intro i; simp [slideClipsFrom]
    | cons s rest ih =>
      intro i
      cases i with
      | zero => simp [slideClipsFrom]
      | succ i =>
        simp only [slideClipsFrom, List.getElem?_cons_succ, ih (j + 1) i]
        rw [show j + 1 + i = j + (i + 1) from by omega]
  have hdur : ∀ W H j (slides : List Slide) c,
      c ∈ slideClipsFrom W H j slides →
        c.duration = 5 / 2 ∨ c = blankFallbackClip := by
    intro W H j slides
    induction slides generalizing j with
    | nil => intro c hc; exact absurd hc (by simp [slideClipsFrom])
    | cons s rest ih =>
      intro c hc
      rcases List.mem_cons.mp hc with hc | hc
      · subst hc
        unfold processSlide
        rcases hcs : create_slide_clip s 1920 1080 (5 / 2) W H with e1 | c1
        · exact Or.inr rfl
        · left
          rw [apply_transition_effect_duration]
          exact create_slide_clip_ok_duration s 1920 1080 (5 / 2) W H c1
            (by norm_num) hcs
      · exact ih (j + 1) c hc
  exact ⟨fun W H slides => hlen W H 1 slides,
    fun W H slides i => by
      have := hidx W H 1 slides i
      rwa [show 1 + i = i + 1 from by omega] at this,
    fun W H slides c hc => hdur W H 1 slides c hc, rfl⟩

/-- Witness for C6 amended: the segment of a successfully rendered
trivial slide has duration 2.5 seconds. -/
theorem claim6_witness :
    Clip.duration
        (Clip.slideFromLeft
          (Clip.imageClip (.flat 1920 1080 white) (5 / 2)) (1 / 2)) =
        5 / 2 ∨
      Clip.slideFromLeft
          (Clip.imageClip (.flat 1920 1080 white) (5 / 2)) (1 / 2) =
        blankFallbackClip :=
  claim6_segment_durations.2.2.1 9144000 6858000 [trivialSlide]
    (Clip.slideFromLeft
      (Clip.imageClip (.flat 1920 1080 white) (5 / 2)) (1 / 2))
    (by rw [show slideClips 9144000 6858000 [trivialSlide] =
          [Clip.slideFromLeft
            (Clip.imageClip (.flat 1920 1080 white) (5 / 2)) (1 / 2)]
        from rfl]
        exact List.mem_singleton.mpr rfl)

theorem convert_pptx_ok (parse : Option Deck) (enc : Encoder)
    (initialFile : Option Nat) (u : Unit)
    (h : (convert_pptx_to_video parse enc initialFile).result = .ok u) :
    (convert_pptx_to_video parse enc initialFile).outputFile = enc.written ∧
      enc.raises = false := by
  rcases parse with _ | deck
  · exact absurd h (by simp [convert_pptx_to_video])
  · unfold convert_pptx_to_video at h ⊢
    simp only at h ⊢
    by_cases hempty :
        (slideClips deck.widthEmu deck.heightEmu deck.slides).isEmpty = true
    · rw [if_pos hempty] at h
      exact absurd h (by simp)
    · rw [if_neg hempty] at h
      rw [if_neg hempty]
      by_cases henc : enc.raises = true
      · rw [if_pos henc] at h
        exact absurd h (by simp)
      · rw [if_neg henc] at h
        rw [if_neg henc]
        exact ⟨rfl, by simpa using henc⟩

theorem convert_to_video_cases (im vp : Bool) (parse : Option Deck)
    (enc : Encoder) (init : Option Nat) :
    (∃ e, (convert_to_video im vp parse enc init).result = .error e ∧
       (convert_to_video im vp parse enc init).finalFile = none) ∨
    (∃ sz, (convert_to_video im vp parse enc init).result = .ok true ∧
       (convert_to_video im vp parse enc init).finalFile = some sz ∧
       1000 ≤ sz ∧ enc.written = some sz) := by
  unfold convert_to_video
  cases im with
  | false => exact Or.inl ⟨_, rfl, rfl⟩
  | true =>
    cases vp with
    | false => exact Or.inl ⟨_, rfl, rfl⟩
    | true =>
      simp only [Bool.true_eq_false, if_false]
      rcases hr : (convert_pptx_to_video parse enc init).result with e | u
      · exact Or.inl ⟨e, rfl, rfl⟩
      · have hout := convert_pptx_ok parse enc init u hr
        rcases ho : (convert_pptx_to_video parse enc init).outputFile
          with _ | sz
        · exact Or.inl ⟨_, rfl, rfl⟩
        · by_cases hsz : sz < 1000
          · refine Or.inl
              ⟨PyError.valueError "Generated video is too small", ?_, ?_⟩ <;>
              simp [hsz]
          · refine Or.inr ⟨sz, ?_, ?_, by omega, by rw [← ho, hout.1]⟩ <;>
              simp [hsz]

/-- C3: a deck with zero slides makes `convert_pptx_to_video` raise (the
wrapped "No valid slides were processed" error) before encoding is
attempted, leaving the output path untouched; through `convert_to_video`
the run fails with that error and no file exists at the output path. -/
theorem claim3_empty_deck :
    ∀ W H enc init,
      (convert_pptx_to_video (some ⟨[], W, H⟩) enc init).result =
        .error (.runtimeError
          "Failed to convert PPTX to video: No valid slides were processed") ∧
      (convert_pptx_to_video (some ⟨[], W, H⟩) enc init).encodingAttempted
        = false ∧
      (convert_pptx_to_video (some ⟨[], W, H⟩) enc init).outputFile = init ∧
      (convert_to_video true true (some ⟨[], W, H⟩) enc init).result =
        .error (.runtimeError
          "Failed to convert PPTX to video: No valid slides were processed") ∧
      (convert_to_video true true (some ⟨[], W, H⟩) enc init).finalFile =
        none :=
  fun _ _ _ _ => ⟨rfl, rfl, rfl, rfl, rfl⟩

/-- C9: `convert_to_video` never returns `False` — a normal return is
`True` and every failure raises — and before an exception propagates the
file at the output path has been removed, so a failed run leaves no
artifact. -/
theorem claim9_success_or_cleanup :
    ∀ im vp parse enc init,
      (∀ b, (convert_to_video im vp parse enc init).result = .ok b →
         b = true) ∧
      (∀ e, (convert_to_video im vp parse enc init).result = .error e →
         (convert_to_video im vp parse enc init).finalFile = none) := by
  intro im vp parse enc init
  rcases convert_to_video_cases im vp parse enc init with
    ⟨e, he, hf⟩ | ⟨sz, hok, hf, _, _⟩
  · constructor
    · intro b hb
      rw [he] at hb
      exact absurd hb (by simp)
    · intro e1 _
      exact hf
  · constructor
    · intro b hb
      rw [hok] at hb
      exact (Except.ok.injEq ..).mp hb.symm
    · intro e1 he1
      rw [hok] at he1
      exact absurd he1 (by simp)

/-- Witness for C9: a successful run returns `True`; a run failing the
ImageMagick check leaves no file at the output path even though a
5000-byte file was there before. -/
theorem claim9_witness :
    true = true ∧
      (convert_to_video false true none ⟨false, none⟩ (some 5000)).finalFile
        = none :=
  ⟨(claim9_success_or_cleanup true true (some ⟨[trivialSlide], 1, 1⟩)
      ⟨false, some 2000⟩ none).1 true rfl,
   (claim9_success_or_cleanup false true none ⟨false, none⟩ (some 5000)).2
      (.runtimeError "ImageMagick is not properly configured") rfl⟩

/-- C1 counterexample: an output file of exactly 1000 bytes does not
exceed 1000 bytes, yet the run is reported as a success (the code only
rejects sizes strictly below 1000). -/
theorem claim1_counterexample :
    (convert_to_video true true (some ⟨[trivialSlide], 9144000, 6858000⟩)
        ⟨false, some 1000⟩ none).result = .ok true ∧
    (convert_to_video true true (some ⟨[trivialSlide], 9144000, 6858000⟩)
        ⟨false, some 1000⟩ none).finalFile = some 1000 ∧
    ¬ (1000 < 1000) :=
  ⟨rfl, rfl, by decide⟩

/-- C1 amended: `convert_to_video` reports success only if the output
file exists with size at least (not strictly above) 1000 bytes; whenever
the encoder succeeded but produced a file smaller than 1000 bytes, the
run raises and the file is deleted before the exception propagates. -/
theorem claim1_min_size_postcondition :
    ∀ im vp parse enc init,
      (∀ b, (convert_to_video im vp parse enc init).result = .ok b →
         ∃ sz, (convert_to_video im vp parse enc init).finalFile = some sz ∧
           1000 ≤ sz) ∧
      (∀ sz, enc.written = some sz → sz < 1000 →
         (∃ e, (convert_to_video im vp parse enc init).result = .error e) ∧
         (convert_to_video im vp parse enc init).finalFile = none) := by
  intro im vp parse enc init
  rcases convert_to_video_cases im vp parse enc init with
    ⟨e, he, hf⟩ | ⟨sz, hok, hf, hge, hw⟩
  · constructor
    · intro b hb
      rw [he] at hb
      exact absurd hb (by simp)
    · intro s _ _
      exact ⟨⟨e, he⟩, hf⟩
  · constructor
    · intro b _
      exact ⟨sz, hf, hge⟩
    · intro s hs hlt
      rw [hw] at hs
      cases hs
      omega

/-- Witness for C1 amended: a successful run with a 2000-byte output
meets the post-condition, and a run whose encoder wrote only 500 bytes
fails and leaves no file. -/
theorem claim1_witness :
    (∃ sz, (convert_to_video true true
        (some ⟨[trivialSlide], 9144000, 6858000⟩) ⟨false, some 2000⟩
        none).finalFile = some sz ∧ 1000 ≤ sz) ∧
    ((∃ e, (convert_to_video true true
        (some ⟨[trivialSlide], 9144000, 6858000⟩) ⟨false, some 500⟩
        none).result = .error e) ∧
      (convert_to_video true true
        (some ⟨[trivialSlide], 9144000, 6858000⟩) ⟨false, some 500⟩
        none).finalFile = none) :=
  ⟨(claim1_min_size_postcondition true true
      (some ⟨[trivialSlide], 9144000, 6858000⟩) ⟨false, some 2000⟩ none).1
      true rfl,
   (claim1_min_size_postcondition true true
      (some ⟨[trivialSlide], 9144000, 6858000⟩) ⟨false, some 500⟩ none).2
      500 rfl (by decide)⟩

end VideoConverter
